import Mathlib

/-!
Verification of the restooo authentication and authorization pipeline.

The definitions below are a shallow embedding of the repository's core:
the JWT token codec (src/services/authService.ts `generateToken`, the
jsonwebtoken library contract), the auth service (`register`, `login`),
the middleware chain (src/middleware/authMiddleware.ts: `authMiddleware`,
`requireRole`, `optionalAuth`) and the HTTP controllers
(src/controllers/authController.ts). External collaborators (bcrypt, the
Prisma credential store, the jsonwebtoken verifier seen from the
middleware) are modelled as explicit parameters; the credential store is
a list of user records; time is a natural-number tick (seconds).
-/

/-- Identity claims placed in a token payload by `generateToken`:
`{ userId, email, role }` (src/services/authService.ts). -/
structure TokenClaims where
  userId : String
  email : String
  role : String
deriving DecidableEq, Repr

/-- Decoded JWT payload as declared in src/middleware/authMiddleware.ts
(`JWTPayload`): the claims plus issued-at `iat` and expiry `exp`. -/
structure JWTPayload where
  userId : String
  email : String
  role : String
  iat : Nat
  exp : Nat
deriving DecidableEq, Repr

/-- Error kinds thrown by `jwt.verify` and branched on by the middleware:
`TokenExpiredError`, `JsonWebTokenError` (signature or decode failure),
and any other unexpected failure. -/
inductive JwtError where
  | tokenExpired : JwtError
  | jsonWebToken : JwtError
  | other : String → JwtError
deriving DecidableEq, Repr

/-- A token artifact: either an undecodable raw string or a payload with
a signature (header omitted: the algorithm is fixed to HS256). -/
inductive Jwt where
  | raw : String → Jwt
  | signed : JWTPayload → String → Jwt
deriving DecidableEq, Repr

/-- Keyed MAC over the payload under the server secret, modelling the
HMAC-SHA256 signature of `jwt.sign`: any change to the payload or the
secret changes the signature. -/
def hmacSHA256 (secret : String) (p : JWTPayload) : String :=
  "hmac(" ++ secret ++ "," ++ p.userId ++ "," ++ p.email ++ "," ++ p.role
    ++ "," ++ toString p.iat ++ "," ++ toString p.exp ++ ")"

/-- `jwt.sign(payload, secret, \x7bexpiresIn: ttl\x7d)`: embeds the claims,
issued-at `now` and expiry `now + ttl`, and signs the payload. -/
def jwtSign (secret : String) (now ttl : Nat) (c : TokenClaims) : Jwt :=
  let p : JWTPayload := ⟨c.userId, c.email, c.role, now, now + ttl⟩
  Jwt.signed p (hmacSHA256 secret p)

/-- `jwt.verify(token, secret)` evaluated at time `now`: decode, check the
signature, then check expiry (`TokenExpiredError` exactly when
`now >= exp` and the signature is valid). -/
def jwtVerifyTok (secret : String) (now : Nat) : Jwt → Except JwtError JWTPayload
  | Jwt.raw _ => Except.error JwtError.jsonWebToken
  | Jwt.signed p sig =>
    if sig ≠ hmacSHA256 secret p then Except.error JwtError.jsonWebToken
    else if p.exp ≤ now then Except.error JwtError.tokenExpired
    else Except.ok p

/-- `AuthService.generateToken`: payload `\x7buserId, email, role ?? "STAFF"\x7d`
signed with the configured secret and ttl (JWT_EXPIRE, default 7 days). -/
def generateToken (secret : String) (now ttl : Nat) (id email : String)
    (role : Option String) : Jwt :=
  jwtSign secret now ttl ⟨id, email, role.getD "STAFF"⟩

/-- Prisma `User` record: `\x7bid, email, password (hash), name, role, active,
createdAt, updatedAt\x7d`. -/
structure User where
  id : String
  email : String
  password : String
  name : String
  role : String
  active : Bool
  createdAt : Nat
  updatedAt : Nat
deriving DecidableEq, Repr

/-- User projection returned to clients: all fields except the password
hash (`const \x7b password, ...userWithoutPassword \x7d = user`). -/
structure UserResponse where
  id : String
  email : String
  name : String
  role : String
  active : Bool
  createdAt : Nat
  updatedAt : Nat
deriving DecidableEq, Repr

/-- Strip the password hash from a user record. -/
def stripPassword (u : User) : UserResponse :=
  ⟨u.id, u.email, u.name, u.role, u.active, u.createdAt, u.updatedAt⟩

/-- `prisma.user.findUnique(\x7bwhere: \x7bemail\x7d\x7d)` over the credential store. -/
def findUserByEmail (store : List User) (email : String) : Option User :=
  store.find? (fun u => u.email == email)

/-- `prisma.user.findUnique(\x7bwhere: \x7bid\x7d\x7d)` over the credential store. -/
def findUserById (store : List User) (id : String) : Option User :=
  store.find? (fun u => u.id == id)

/-- Validated registration body (src/validators/authValidator.ts
`RegisterInput`): role optional. -/
structure RegisterInput where
  email : String
  password : String
  name : String
  role : Option String
deriving DecidableEq, Repr

/-- Validated login body (`LoginInput`). -/
structure LoginInput where
  email : String
  password : String
deriving DecidableEq, Repr

/-- `ServiceResponse<T>`: success with data or failure with an error
message, never both. -/
inductive ServiceResponse (α : Type) where
  | success : α → ServiceResponse α
  | failure : String → ServiceResponse α
deriving DecidableEq, Repr

/-- `AuthResponse`: user projection plus token. -/
structure AuthResponse where
  user : UserResponse
  token : Jwt
deriving DecidableEq, Repr

/-- JavaScript `x || d` on an optional string: the default is taken both
when the value is absent and when it is the (falsy) empty string, as in
`role: data.role || "STAFF"`. -/
def jsOrDefault (x : Option String) (d : String) : String :=
  match x with
  | none => d
  | some s => if s = "" then d else s

/-- `AuthService.register`: reject when the email exists, otherwise hash
the password (bcrypt modelled by the `hashFn` parameter), persist the new
user (id and timestamps supplied by the store, modelled by `freshId` and
`now`), strip the password, issue a token, and return user + token with
the updated store. -/
def register (store : List User) (hashFn : String → String) (freshId : String)
    (now : Nat) (secret : String) (ttl : Nat) (data : RegisterInput) :
    ServiceResponse AuthResponse × List User :=
  match findUserByEmail store data.email with
  | some _ => (ServiceResponse.failure "Email already exists", store)
  | none =>
    let hashed := hashFn data.password
    let user : User :=
      ⟨freshId, data.email, hashed, data.name, jsOrDefault data.role "STAFF",
        true, now, now⟩
    let token := generateToken secret now ttl user.id user.email (some user.role)
    (ServiceResponse.success ⟨stripPassword user, token⟩, store ++ [user])

/-- `AuthService.login`: look up by email; absent user and wrong password
both return the same generic "Invalid credentials" failure; on success
strip the password and issue a token. bcrypt.compare is modelled by the
`compare` parameter (plaintext, stored hash). -/
def login (store : List User) (compare : String → String → Bool)
    (secret : String) (now ttl : Nat) (data : LoginInput) :
    ServiceResponse AuthResponse :=
  match findUserByEmail store data.email with
  | none => ServiceResponse.failure "Invalid credentials"
  | some user =>
    if compare data.password user.password then
      ServiceResponse.success
        ⟨stripPassword user,
          generateToken secret now ttl user.id user.email (some user.role)⟩
    else ServiceResponse.failure "Invalid credentials"

/-- The identity attached to the request context (`req.user`, declared in
src/types/express/index.d.ts). -/
structure ReqUser where
  userId : String
  email : String
  role : String
deriving DecidableEq, Repr

/-- Outcome of a middleware gate on a request: a rejection response
(status and error message) or control passed to the next handler with the
current request identity context. -/
inductive GateResult where
  | reject : Nat → String → GateResult
  | pass : Option ReqUser → GateResult
deriving DecidableEq, Repr

/-- JavaScript `s.split(" ")` on a list of characters: split at every
space, keeping empty segments. -/
def splitCharsOnSpace : List Char → List String
  | [] => [""]
  | c :: rest =>
    let r := splitCharsOnSpace rest
    if c = ' ' then "" :: r
    else (String.singleton c ++ r.headD "") :: r.tail

/-- JavaScript `s.split(" ")`. -/
def jsSplitSpace (s : String) : List String :=
  splitCharsOnSpace s.toList

/-- `authMiddleware`: mandatory authentication gate. Missing (or falsy
empty) header rejects with "No token provided"; a header that does not
split into exactly two parts with first part "Bearer" rejects with the
format message; otherwise the token segment is verified (`tv` models
`jwt.verify` with the server secret at the current instant) and the three
error kinds map to their messages, success attaching the identity. -/
def authMiddleware (authHeader : Option String)
    (tv : String → Except JwtError JWTPayload) : GateResult :=
  match authHeader with
  | none => GateResult.reject 401 "No token provided"
  | some h =>
    if h = "" then GateResult.reject 401 "No token provided"
    else
      if (jsSplitSpace h).length ≠ 2 ∨ (jsSplitSpace h).getD 0 "" ≠ "Bearer" then
        GateResult.reject 401 "Token format invalid. Expected: Bearer <token>"
      else
        match tv ((jsSplitSpace h).getD 1 "") with
        | Except.ok d => GateResult.pass (some ⟨d.userId, d.email, d.role⟩)
        | Except.error JwtError.tokenExpired => GateResult.reject 401 "Token expired"
        | Except.error JwtError.jsonWebToken => GateResult.reject 401 "Invalid token"
        | Except.error (JwtError.other _) => GateResult.reject 401 "Authentication failed"

/-- `requireRole(allowedRoles)`: role authorization gate over the identity
attached by the authentication gate. -/
def requireRole (allowedRoles : List String) (user : Option ReqUser) : GateResult :=
  match user with
  | none => GateResult.reject 401 "Unauthorized - Authentication required"
  | some u =>
    if ¬ allowedRoles.contains u.role then
      GateResult.reject 403
        ("Forbidden - Requires one of the following roles: "
          ++ String.intercalate ", " allowedRoles)
    else GateResult.pass (some u)

/-- `optionalAuth`: same extraction and verification as `authMiddleware`,
but every failure falls through to `next()` with no identity attached. -/
def optionalAuth (authHeader : Option String)
    (tv : String → Except JwtError JWTPayload) : GateResult :=
  match authHeader with
  | none => GateResult.pass none
  | some h =>
    if h = "" then GateResult.pass none
    else
      if (jsSplitSpace h).length ≠ 2 ∨ (jsSplitSpace h).getD 0 "" ≠ "Bearer" then
        GateResult.pass none
      else
        match tv ((jsSplitSpace h).getD 1 "") with
        | Except.ok d => GateResult.pass (some ⟨d.userId, d.email, d.role⟩)
        | Except.error _ => GateResult.pass none

/-- Body of an HTTP JSON response, as shaped by the controllers. -/
inductive RespBody where
  | error : String → RespBody
  | userData : UserResponse → RespBody
  | authData : UserResponse → Jwt → RespBody
  | note : String → RespBody
deriving DecidableEq, Repr

/-- An HTTP response: status code and body. -/
structure HttpResponse where
  status : Nat
  body : RespBody
deriving DecidableEq, Repr

/-- Run a gate in front of a protected handler: a rejection is sent as the
response and the handler never runs; on pass the handler runs with the
attached identity. -/
def runGate (g : GateResult) (handler : Option ReqUser → HttpResponse) : HttpResponse :=
  match g with
  | GateResult.reject s m => ⟨s, RespBody.error m⟩
  | GateResult.pass u => handler u

/-- `authController.register`: 409 for "Email already exists", 400 for
other failures, 201 with user + token on success. -/
def registerController (store : List User) (hashFn : String → String)
    (freshId : String) (now : Nat) (secret : String) (ttl : Nat)
    (data : RegisterInput) : HttpResponse × List User :=
  match register store hashFn freshId now secret ttl data with
  | (ServiceResponse.failure e, st) =>
    (if e = "Email already exists" then ⟨409, RespBody.error e⟩
     else ⟨400, RespBody.error e⟩, st)
  | (ServiceResponse.success d, st) => (⟨201, RespBody.authData d.user d.token⟩, st)

/-- `authController.login`: 401 with the service error on failure, 200
with user + token on success. -/
def loginController (store : List User) (compare : String → String → Bool)
    (secret : String) (now ttl : Nat) (data : LoginInput) : HttpResponse :=
  match login store compare secret now ttl data with
  | ServiceResponse.failure e => ⟨401, RespBody.error e⟩
  | ServiceResponse.success d => ⟨200, RespBody.authData d.user d.token⟩

/-- `authController.me`: fetch the subject of the attached identity; 404
when the account no longer exists, 200 with the stripped user otherwise.
A missing identity would fault inside the try block and be caught as 500. -/
def meController (store : List User) (user : Option ReqUser) : HttpResponse :=
  match user with
  | none => ⟨500, RespBody.error "Failed to get user information"⟩
  | some ru =>
    match findUserById store ru.userId with
    | none => ⟨404, RespBody.error "User not found"⟩
    | some u => ⟨200, RespBody.userData (stripPassword u)⟩

/-- `GET /auth/me` as wired in src/routes/authRoutes.ts:
`router.get("/me", authMiddleware, authController.me)`. -/
def meEndpoint (store : List User) (header : Option String)
    (tv : String → Except JwtError JWTPayload) : HttpResponse :=
  runGate (authMiddleware header tv) (meController store)

/-- Decidable equality of token-verification results, used to evaluate
concrete middleware runs. -/
instance {ε α : Type} [DecidableEq ε] [DecidableEq α] : DecidableEq (Except ε α) :=
  fun x y =>
    match x, y with
    | Except.ok a, Except.ok b =>
      if h : a = b then Decidable.isTrue (by rw [h])
      else Decidable.isFalse (fun hc => h (Except.ok.inj hc))
    | Except.error a, Except.error b =>
      if h : a = b then Decidable.isTrue (by rw [h])
      else Decidable.isFalse (fun hc => h (Except.error.inj hc))
    | Except.ok _, Except.error _ => Decidable.isFalse (fun hc => Except.noConfusion hc)
    | Except.error _, Except.ok _ => Decidable.isFalse (fun hc => Except.noConfusion hc)

/-- A verifier that fails with an unexpected (non-JWT) error, as when
`jwt.verify` throws something other than its own error classes. -/
def tvOtherBoom : String → Except JwtError JWTPayload :=
  fun _ => Except.error (JwtError.other "boom")

/-- A verifier that rejects every token as malformed (`JsonWebTokenError`),
as `jwt.verify` does on the empty token string. -/
def tvAlwaysInvalid : String → Except JwtError JWTPayload :=
  fun _ => Except.error JwtError.jsonWebToken

/-- A sample decoded payload. -/
def payload0 : JWTPayload := ⟨"u1", "a@x.com", "STAFF", 0, 7⟩

/-- A verifier that accepts every token with `payload0`. -/
def tvAlwaysOk : String → Except JwtError JWTPayload := fun _ => Except.ok payload0

/-- A protected handler used to observe whether a gate lets control
through. -/
def handler0 : Option ReqUser → HttpResponse :=
  fun _ => ⟨200, RespBody.note "handler ran"⟩

/-- A request identity with role STAFF. -/
def staffUser : ReqUser := ⟨"u1", "a@x.com", "STAFF"⟩

/-- A request identity with role ADMIN. -/
def adminUser : ReqUser := ⟨"u2", "b@x.com", "ADMIN"⟩

/-- A stored user record. -/
def user0 : User := ⟨"u1", "a@x.com", "hash1", "A", "STAFF", true, 0, 0⟩

/-- A bcrypt comparison that never matches (wrong password). -/
def compareNever : String → String → Bool := fun _ _ => false

/-- A sample password hash function standing in for bcrypt.hash. -/
def hashFn0 : String → String := fun s => "h:" ++ s

/-- A registration body with no role supplied. -/
def regData0 : RegisterInput := ⟨"c@x.com", "secret1", "C", none⟩

/-- Every rejection of the mandatory authentication gate carries status
401 and one of the five fixed messages. -/
lemma authMiddleware_reject_classify (header : Option String)
    (tv : String → Except JwtError JWTPayload) (s : Nat) (m : String)
    (h : authMiddleware header tv = GateResult.reject s m) :
    s = 401 ∧ (m = "No token provided" ∨
      m = "Token format invalid. Expected: Bearer <token>" ∨
      m = "Token expired" ∨ m = "Invalid token" ∨ m = "Authentication failed") := by
  unfold authMiddleware at h
  repeat' split at h
  all_goals simp_all

/-- The optional authentication gate always passes control on. -/
lemma optionalAuth_shape (header : Option String)
    (tv : String → Except JwtError JWTPayload) :
    ∃ u, optionalAuth header tv = GateResult.pass u := by
  unfold optionalAuth
  repeat' split
  all_goals exact ⟨_, rfl⟩

/-- C1: for every stored user and submitted password, login with an
existing email but a non-matching password returns exactly the same error
outcome (message "Invalid credentials", HTTP 401) as login with an email
that has no user record; the two failures are indistinguishable. -/
theorem login_enumeration_resistance (store : List User)
    (compare : String → String → Bool) (secret : String) (now ttl : Nat)
    (email1 pw1 : String) (u : User) (email2 pw2 : String)
    (hfound : findUserByEmail store email1 = some u)
    (hwrong : compare pw1 u.password = false)
    (hnone : findUserByEmail store email2 = none) :
    loginController store compare secret now ttl ⟨email1, pw1⟩ =
      ⟨401, RespBody.error "Invalid credentials"⟩ ∧
    loginController store compare secret now ttl ⟨email2, pw2⟩ =
      ⟨401, RespBody.error "Invalid credentials"⟩ ∧
    loginController store compare secret now ttl ⟨email1, pw1⟩ =
      loginController store compare secret now ttl ⟨email2, pw2⟩ := by
  have h1 : loginController store compare secret now ttl ⟨email1, pw1⟩ =
      ⟨401, RespBody.error "Invalid credentials"⟩ := by
    unfold loginController login
    simp [hfound, hwrong]
  have h2 : loginController store compare secret now ttl ⟨email2, pw2⟩ =
      ⟨401, RespBody.error "Invalid credentials"⟩ := by
    unfold loginController login
    simp [hnone]
  exact ⟨h1, h2, h1.trans h2.symm⟩

/-- Witness for C1 at a concrete store, wrong password, and unknown
email. -/
theorem login_enumeration_resistance_witness :
    loginController [user0] compareNever "s" 0 7 ⟨"a@x.com", "wrong"⟩ =
      ⟨401, RespBody.error "Invalid credentials"⟩ ∧
    loginController [user0] compareNever "s" 0 7 ⟨"b@x.com", "wrong"⟩ =
      ⟨401, RespBody.error "Invalid credentials"⟩ ∧
    loginController [user0] compareNever "s" 0 7 ⟨"a@x.com", "wrong"⟩ =
      loginController [user0] compareNever "s" 0 7 ⟨"b@x.com", "wrong"⟩ :=
  login_enumeration_resistance [user0] compareNever "s" 0 7 "a@x.com" "wrong"
    user0 "b@x.com" "wrong" (by decide) rfl (by decide)

/-- C2: verifying a token issued from a claims triple with the same
secret, at any time strictly before the expiry `now + ttl`, succeeds and
yields exactly the input claims (with issued-at `now` and the computed
expiry). -/
theorem token_issue_verify_roundtrip (c : TokenClaims) (secret : String)
    (now ttl t : Nat) (httl : 0 < ttl) (ht : t < now + ttl) :
    jwtVerifyTok secret t (jwtSign secret now ttl c) =
      Except.ok ⟨c.userId, c.email, c.role, now, now + ttl⟩ := by
  simp [jwtVerifyTok, jwtSign]
  omega

/-- Witness for C2 at a concrete claims triple, secret and ttl. -/
theorem token_issue_verify_roundtrip_witness :
    0 < 7 ∧ 3 < 0 + 7 ∧
    jwtVerifyTok "s" 3 (jwtSign "s" 0 7 ⟨"u1", "a@x.com", "STAFF"⟩) =
      Except.ok ⟨"u1", "a@x.com", "STAFF", 0, 0 + 7⟩ :=
  ⟨by decide, by decide,
    token_issue_verify_roundtrip ⟨"u1", "a@x.com", "STAFF"⟩ "s" 0 7 3
      (by decide) (by decide)⟩

/-- C3: whenever the mandatory authentication gate rejects, the protected
handler never runs, the status is 401, and the message is one of the five
fixed strings; a verification failure that is neither expiry nor a
signature/decode error yields the generic "Authentication failed". -/
theorem authMiddleware_rejections_classified (header : Option String)
    (tv : String → Except JwtError JWTPayload) (s : Nat) (m : String)
    (handler : Option ReqUser → HttpResponse) (hd : String) (e : String) :
    (authMiddleware header tv = GateResult.reject s m →
      s = 401 ∧
      (m = "No token provided" ∨
        m = "Token format invalid. Expected: Bearer <token>" ∨
        m = "Token expired" ∨ m = "Invalid token" ∨ m = "Authentication failed") ∧
      runGate (authMiddleware header tv) handler = ⟨s, RespBody.error m⟩) ∧
    (hd ≠ "" → (jsSplitSpace hd).length = 2 → (jsSplitSpace hd).getD 0 "" = "Bearer" →
      tv ((jsSplitSpace hd).getD 1 "") = Except.error (JwtError.other e) →
      authMiddleware (some hd) tv = GateResult.reject 401 "Authentication failed") := by
  constructor
  · intro h
    obtain ⟨h1, h2⟩ := authMiddleware_reject_classify header tv s m h
    refine ⟨h1, h2, ?_⟩
    rw [h]
    rfl
  · intro h0 h1 h2 h3
    unfold authMiddleware
    rcases hsp : jsSplitSpace hd with _ | ⟨a, t⟩
    · rw [hsp] at h1; simp at h1
    · rcases t with _ | ⟨b, t2⟩
      · rw [hsp] at h1; simp at h1
      · rcases t2 with _ | ⟨c, t3⟩
        · rw [hsp] at h2 h3
          simp at h2 h3
          subst h2
          simp [h0, hsp, h3]
        · rw [hsp] at h1; simp at h1

/-- Witness for C3: a well-formed header whose token verification fails
with an unexpected error is rejected 401 "Authentication failed" and the
handler never runs. -/
theorem authMiddleware_rejections_classified_witness :
    (401 = 401 ∧
      ("Authentication failed" = "No token provided" ∨
        "Authentication failed" = "Token format invalid. Expected: Bearer <token>" ∨
        "Authentication failed" = "Token expired" ∨
        "Authentication failed" = "Invalid token" ∨
        "Authentication failed" = "Authentication failed") ∧
      runGate (authMiddleware (some "Bearer x") tvOtherBoom) handler0 =
        ⟨401, RespBody.error "Authentication failed"⟩) ∧
    authMiddleware (some "Bearer x") tvOtherBoom =
      GateResult.reject 401 "Authentication failed" :=
  ⟨(authMiddleware_rejections_classified (some "Bearer x") tvOtherBoom 401
      "Authentication failed" handler0 "Bearer x" "boom").1 (by decide),
   (authMiddleware_rejections_classified (some "Bearer x") tvOtherBoom 401
      "Authentication failed" handler0 "Bearer x" "boom").2
      (by decide) (by decide) (by decide) rfl⟩

/-- C4: the header "Bearer " (empty token segment) passes the two-part
format check, so the gate does not return the format error; verification
of the empty token fails as malformed and the rejection is 401
"Invalid token". -/
theorem bearer_empty_token_not_format_error
    (tv : String → Except JwtError JWTPayload)
    (hv : tv "" = Except.error JwtError.jsonWebToken) :
    authMiddleware (some "Bearer ") tv = GateResult.reject 401 "Invalid token" ∧
    authMiddleware (some "Bearer ") tv ≠
      GateResult.reject 401 "Token format invalid. Expected: Bearer <token>" := by
  have hsplit : jsSplitSpace "Bearer " = ["Bearer", ""] := by decide
  have hne : ("Bearer " : String) ≠ "" := by decide
  have hmain : authMiddleware (some "Bearer ") tv = GateResult.reject 401 "Invalid token" := by
    unfold authMiddleware
    simp [hsplit, hne, hv]
  refine ⟨hmain, ?_⟩
  rw [hmain]
  simp

/-- Witness for C4 with the verifier that rejects the empty token as
malformed, as jwt.verify does. -/
theorem bearer_empty_token_not_format_error_witness :
    authMiddleware (some "Bearer ") tvAlwaysInvalid = GateResult.reject 401 "Invalid token" ∧
    authMiddleware (some "Bearer ") tvAlwaysInvalid ≠
      GateResult.reject 401 "Token format invalid. Expected: Bearer <token>" :=
  bearer_empty_token_not_format_error tvAlwaysInvalid rfl

/-- C5: with an attached identity whose role is not in the allow-list,
the role gate rejects 403 with the exact message naming the comma-joined
allow-list and the handler never runs; an identity whose role is in the
allow-list is let through. -/
theorem requireRole_enforces_allowlist (roles : List String) (u : ReqUser)
    (handler : Option ReqUser → HttpResponse) :
    (roles.contains u.role = false →
      requireRole roles (some u) = GateResult.reject 403
        ("Forbidden - Requires one of the following roles: " ++ String.intercalate ", " roles) ∧
      runGate (requireRole roles (some u)) handler =
        ⟨403, RespBody.error
          ("Forbidden - Requires one of the following roles: " ++ String.intercalate ", " roles)⟩) ∧
    (roles.contains u.role = true → requireRole roles (some u) = GateResult.pass (some u)) := by
  constructor
  · intro hmem
    have hmem2 : u.role ∉ roles := by simpa using hmem
    have hr : requireRole roles (some u) = GateResult.reject 403
        ("Forbidden - Requires one of the following roles: " ++ String.intercalate ", " roles) := by
      unfold requireRole
      simp [hmem2]
    refine ⟨hr, ?_⟩
    rw [hr]
    rfl
  · intro hmem
    have hmem2 : u.role ∈ roles := by simpa using hmem
    unfold requireRole
    simp [hmem2]

/-- Witness for C5: requireRole(["ADMIN"]) rejects a STAFF caller with
403 listing "ADMIN", and lets an ADMIN caller through. -/
theorem requireRole_enforces_allowlist_witness :
    (requireRole ["ADMIN"] (some staffUser) = GateResult.reject 403
      ("Forbidden - Requires one of the following roles: " ++ String.intercalate ", " ["ADMIN"]) ∧
     runGate (requireRole ["ADMIN"] (some staffUser)) handler0 =
      ⟨403, RespBody.error
        ("Forbidden - Requires one of the following roles: " ++ String.intercalate ", " ["ADMIN"])⟩) ∧
    requireRole ["ADMIN"] (some adminUser) = GateResult.pass (some adminUser) :=
  ⟨(requireRole_enforces_allowlist ["ADMIN"] staffUser handler0).1 (by decide),
   (requireRole_enforces_allowlist ["ADMIN"] adminUser handler0).2 (by decide)⟩

/-- C6: registering an email that already exists returns the EmailTaken
outcome (service failure "Email already exists", HTTP 409) and leaves the
credential store exactly unchanged. -/
theorem register_email_taken_unchanged (store : List User)
    (hashFn : String → String) (freshId : String) (now : Nat) (secret : String)
    (ttl : Nat) (data : RegisterInput) (u : User)
    (hexists : findUserByEmail store data.email = some u) :
    register store hashFn freshId now secret ttl data =
      (ServiceResponse.failure "Email already exists", store) ∧
    registerController store hashFn freshId now secret ttl data =
      (⟨409, RespBody.error "Email already exists"⟩, store) := by
  have h1 : register store hashFn freshId now secret ttl data =
      (ServiceResponse.failure "Email already exists", store) := by
    unfold register
    simp [hexists]
  refine ⟨h1, ?_⟩
  unfold registerController
  rw [h1]
  simp

/-- Witness for C6: a second registration of an already stored email. -/
theorem register_email_taken_unchanged_witness :
    register [user0] hashFn0 "u2" 1 "s" 7 ⟨"a@x.com", "secret1", "B", none⟩ =
      (ServiceResponse.failure "Email already exists", [user0]) ∧
    registerController [user0] hashFn0 "u2" 1 "s" 7 ⟨"a@x.com", "secret1", "B", none⟩ =
      (⟨409, RespBody.error "Email already exists"⟩, [user0]) :=
  register_email_taken_unchanged [user0] hashFn0 "u2" 1 "s" 7
    ⟨"a@x.com", "secret1", "B", none⟩ user0 (by decide)

/-- C7: a successful registration without a role stores the user with
role STAFF and returns a user projection without the password hash; for
every registration, the returned response is independent of the password
hash function, so the hash never reaches the response. -/
theorem register_defaults_staff_strips_password (store : List User)
    (hashFn : String → String) (freshId : String) (now : Nat) (secret : String)
    (ttl : Nat) (data : RegisterInput)
    (hfresh : findUserByEmail store data.email = none) (hrole : data.role = none) :
    register store hashFn freshId now secret ttl data =
      (ServiceResponse.success
        ⟨⟨freshId, data.email, data.name, "STAFF", true, now, now⟩,
          generateToken secret now ttl freshId data.email (some "STAFF")⟩,
        store ++ [⟨freshId, data.email, hashFn data.password, data.name,
          "STAFF", true, now, now⟩]) ∧
    (∀ h1 h2 : String → String, ∀ d2 : RegisterInput,
      (register store h1 freshId now secret ttl d2).1 =
        (register store h2 freshId now secret ttl d2).1) := by
  constructor
  · unfold register
    simp [hfresh, hrole, jsOrDefault, stripPassword]
  · intro h1 h2 d2
    unfold register
    cases hfind : findUserByEmail store d2.email with
    | some w => simp [hfind]
    | none => simp [hfind, stripPassword]

/-- Witness for C7: registering with no role on an empty store. -/
theorem register_defaults_staff_strips_password_witness :
    register [] hashFn0 "u3" 2 "s" 7 regData0 =
      (ServiceResponse.success
        ⟨⟨"u3", "c@x.com", "C", "STAFF", true, 2, 2⟩,
          generateToken "s" 2 7 "u3" "c@x.com" (some "STAFF")⟩,
        [⟨"u3", "c@x.com", hashFn0 "secret1", "C", "STAFF", true, 2, 2⟩]) :=
  (register_defaults_staff_strips_password [] hashFn0 "u3" 2 "s" 7 regData0
    (by decide) rfl).1

/-- C8: the optional authentication gate always passes the request on and
never sends a rejection; an identity is attached exactly when the header
is present, splits into two parts with first part "Bearer", and the token
verifies. -/
theorem optionalAuth_always_admits (header : Option String)
    (tv : String → Except JwtError JWTPayload) :
    (∃ u, optionalAuth header tv = GateResult.pass u) ∧
    (∀ s m, optionalAuth header tv ≠ GateResult.reject s m) ∧
    ((∃ r, optionalAuth header tv = GateResult.pass (some r)) ↔
      (∃ h, header = some h ∧ (jsSplitSpace h).length = 2 ∧
        (jsSplitSpace h).getD 0 "" = "Bearer" ∧
        ∃ p, tv ((jsSplitSpace h).getD 1 "") = Except.ok p)) := by
  obtain ⟨u, hu⟩ := optionalAuth_shape header tv
  refine ⟨⟨u, hu⟩, ?_, ?_, ?_⟩
  · intro s m hc
    rw [hu] at hc
    exact GateResult.noConfusion hc
  · rintro ⟨r, hr⟩
    unfold optionalAuth at hr
    cases header with
    | none => exact absurd (GateResult.pass.inj hr) (by simp)
    | some h =>
      refine ⟨h, rfl, ?_⟩
      dsimp only at hr
      split at hr
      · exact absurd (GateResult.pass.inj hr) (by simp)
      · split at hr
        · exact absurd (GateResult.pass.inj hr) (by simp)
        · rename_i hcond
          push_neg at hcond
          split at hr
          · rename_i d hd
            exact ⟨hcond.1, hcond.2, d, hd⟩
          · exact absurd (GateResult.pass.inj hr) (by simp)
  · rintro ⟨h, rfl, hlen, hbear, p, hp⟩
    refine ⟨⟨p.userId, p.email, p.role⟩, ?_⟩
    have hne : h ≠ "" := by
      intro h0
      subst h0
      exact absurd hlen (by decide)
    unfold optionalAuth
    rcases hsp : jsSplitSpace h with _ | ⟨a, t⟩
    · rw [hsp] at hlen; simp at hlen
    · rcases t with _ | ⟨b, t2⟩
      · rw [hsp] at hlen; simp at hlen
      · rcases t2 with _ | ⟨c, t3⟩
        · rw [hsp] at hbear hp
          simp at hbear hp
          subst hbear
          simp [hne, hsp, hp]
        · rw [hsp] at hlen; simp at hlen

/-- Witness for C8: with no header the optional gate passes the request
on with no identity. -/
theorem optionalAuth_always_admits_witness :
    ∃ u, optionalAuth none tvAlwaysInvalid = GateResult.pass u :=
  (optionalAuth_always_admits none tvAlwaysInvalid).1

/-- C9: GET /auth/me behind the mandatory gate: an authenticated request
whose subject exists gets 200 with the stripped user; an authenticated
request whose subject was deleted gets 404; a rejected (unauthenticated)
request gets 401 with the gate's message. -/
theorem me_endpoint_statuses (store : List User) (header : Option String)
    (tv : String → Except JwtError JWTPayload) (ru : ReqUser) (u : User)
    (s : Nat) (m : String) :
    (authMiddleware header tv = GateResult.pass (some ru) →
      findUserById store ru.userId = some u →
      meEndpoint store header tv = ⟨200, RespBody.userData (stripPassword u)⟩) ∧
    (authMiddleware header tv = GateResult.pass (some ru) →
      findUserById store ru.userId = none →
      meEndpoint store header tv = ⟨404, RespBody.error "User not found"⟩) ∧
    (authMiddleware header tv = GateResult.reject s m →
      meEndpoint store header tv = ⟨401, RespBody.error m⟩) := by
  refine ⟨?_, ?_, ?_⟩
  · intro hg hf
    unfold meEndpoint
    rw [hg]
    unfold runGate meController
    simp [hf]
  · intro hg hf
    unfold meEndpoint
    rw [hg]
    unfold runGate meController
    simp [hf]
  · intro hg
    obtain ⟨h401, _⟩ := authMiddleware_reject_classify header tv s m hg
    subst h401
    unfold meEndpoint
    rw [hg]
    rfl

/-- Witness for C9: the three outcomes at concrete stores and headers. -/
theorem me_endpoint_statuses_witness :
    meEndpoint [user0] (some "Bearer t") tvAlwaysOk =
      ⟨200, RespBody.userData (stripPassword user0)⟩ ∧
    meEndpoint [] (some "Bearer t") tvAlwaysOk =
      ⟨404, RespBody.error "User not found"⟩ ∧
    meEndpoint [] none tvAlwaysOk = ⟨401, RespBody.error "No token provided"⟩ :=
  ⟨(me_endpoint_statuses [user0] (some "Bearer t") tvAlwaysOk ⟨"u1", "a@x.com", "STAFF"⟩
      user0 401 "No token provided").1 (by decide) (by decide),
   (me_endpoint_statuses [] (some "Bearer t") tvAlwaysOk ⟨"u1", "a@x.com", "STAFF"⟩
      user0 401 "No token provided").2.1 (by decide) (by decide),
   (me_endpoint_statuses [] none tvAlwaysOk ⟨"u1", "a@x.com", "STAFF"⟩
      user0 401 "No token provided").2.2 (by decide)⟩

/-- C10: the role gate with an empty allow-list rejects every request:
401 "Unauthorized - Authentication required" when no identity is
attached, 403 for any identity (no role is in the empty list); the
handler never runs. -/
theorem requireRole_empty_list_rejects_all (u : ReqUser)
    (handler : Option ReqUser → HttpResponse) :
    requireRole [] none = GateResult.reject 401 "Unauthorized - Authentication required" ∧
    requireRole [] (some u) =
      GateResult.reject 403 "Forbidden - Requires one of the following roles: " ∧
    runGate (requireRole [] none) handler =
      ⟨401, RespBody.error "Unauthorized - Authentication required"⟩ ∧
    runGate (requireRole [] (some u)) handler =
      ⟨403, RespBody.error "Forbidden - Requires one of the following roles: "⟩ := by
  have h2 : requireRole [] (some u) =
      GateResult.reject 403 "Forbidden - Requires one of the following roles: " := by
    unfold requireRole
    simp
    decide
  exact ⟨rfl, h2, rfl, by rw [h2]; rfl⟩
